import Mathlib

/-!
# Verification of the irrigation water-usage cross-check app

Shallow embedding of the two AppDaemon app variants in this repository:

* `src/apps/irrigation_check/irrigation_check.py` (the current variant, embedded
  below without a suffix), and
* `src/irrigation_check.py` (the legacy variant, embedded with a `_v1` suffix).

Modelling conventions:

* Python numbers (ints and floats) are modelled as rationals `ℚ`; the explicit
  truncations performed by the code (`int(...)`, `round(..., 1)`) are modelled
  by `pyInt` and `pyRound1`.
* Timestamps and timedeltas are rationals, in seconds on a single timeline.
  `datetime.now()` and `datetime.now(tz)` denote the same instant, so the
  difference between an aware and a naive datetime of the same instant is 0.
* History entity states are modelled as already-parsed numbers; the `get_history`
  collaborator is a function from the requested `start_time` to the returned
  nested list (the query window implicitly ends at the present time).
* Python runtime exceptions escaping a handler are modelled by `Except`:
  a `.error` result of a handler is an unhandled exception propagating out of
  the AppDaemon callback. `EventData` field value `none` models a missing
  dictionary key (`KeyError`); a present but unconvertible value (`ValueError`)
  is folded into the same `none` case.
-/

namespace IrrigationCheck

/-- Python `int()` conversion applied to a number: truncation toward zero. -/
def pyInt (q : ℚ) : ℤ := if 0 ≤ q then ⌊q⌋ else ⌈q⌉

/-- Python `round` to an integer: round half to even (banker rounding). -/
def pyRoundInt (q : ℚ) : ℤ :=
  if q - ⌊q⌋ = 1 / 2 then (if Even ⌊q⌋ then ⌊q⌋ else ⌊q⌋ + 1) else round q

/-- Python `round(q, 1)`: round to one decimal place, half to even. -/
def pyRound1 (q : ℚ) : ℚ := (pyRoundInt (q * 10) : ℚ) / 10

/-- Python runtime errors that the embedded handlers can raise. -/
inductive PyErr
  | keyError
  | indexError
  | zeroDivisionError
deriving DecidableEq, Repr

/-- Configuration of the current app variant, with the defaults assigned in
`initialize` (`min_duration` is in minutes, `min_expected_lpm` in liters per
minute). -/
structure Config where
  sequence_entity_id : String
  sprinkler_entity_id : Option String := none
  min_duration : ℤ := 3
  min_expected_lpm : ℤ := 10
  notify_ok_action : Option String := none
  notify_alert_action : Option String := none

/-- Configuration of the legacy app variant (`delay_minutes` defaults to 10). -/
structure ConfigV1 where
  sequence_entity_id : String
  min_duration : ℤ := 3
  delay_minutes : ℤ := 10
  min_expected_lpm : ℤ := 10
  alert_notify_action : Option String := none

/-- The spec threshold `minDurationSeconds` expressed in terms of the
configuration knob `min_duration`, which the code keeps in minutes. -/
def minDurationSeconds (min_duration : ℤ) : ℤ := 60 * min_duration

/-- The fields of an `irrigation_unlimited_finish` event payload that the
handlers access. `entity_id` is `data[entity_id]`; `run_duration` is the
numeric value of `data[run][duration]`, with `none` modelling a missing key. -/
structure EventData where
  entity_id : Option String
  run_duration : Option ℚ

/-- The per-run data the current variant stores into `data` before scheduling
`check_usage`: `data[duration] = int(data[run][duration])` and
`data[finish_time] = datetime.now(tz)` at event observation time. -/
structure TaskData where
  duration : ℤ
  finish_time : ℚ
deriving DecidableEq, Repr

/-- Effects of one `irrigation_complete` invocation in the current variant:
whether a valve check was scheduled (`run_in(check_valve, 10)`), and the data
of the scheduled `check_usage` task, if any (`run_in(check_usage, 30, data)`).
`task = none` means no verification task was created, hence no usage query is
ever issued for this event. -/
structure WatcherResult where
  valve_check : Bool
  task : Option TaskData
deriving DecidableEq, Repr

/-- Embedding of `IrrigationCheck.irrigation_complete` of the current variant.
`now` is the observation time `datetime.now(tz)`. Field accesses on a missing
key raise `KeyError`. -/
def irrigation_complete (cfg : Config) (data : EventData) (now : ℚ) :
    Except PyErr WatcherResult :=
  match data.entity_id with
  | none => .error .keyError
  | some eid =>
    if eid = cfg.sequence_entity_id then
      let valve := cfg.sprinkler_entity_id.isSome
      match data.run_duration with
      | none => .error .keyError
      | some q =>
        let duration := pyInt q
        if ((duration : ℚ) / 60) < (cfg.min_duration : ℚ) then
          .ok ⟨valve, none⟩
        else
          .ok ⟨valve, some ⟨duration, now⟩⟩
    else .ok ⟨false, none⟩

/-- Embedding of `IrrigationCheck.irrigation_complete` of the legacy variant:
`duration = int(int(data[run][duration]) / 60)` (minutes); on success returns
the raw duration value handed to the scheduled `check_usage` (`some`), or
`none` when the run is skipped as too short and no usage query is issued. -/
def irrigation_complete_v1 (cfg : ConfigV1) (data : EventData) :
    Except PyErr (Option ℚ) :=
  match data.entity_id with
  | none => .error .keyError
  | some eid =>
    if eid = cfg.sequence_entity_id then
      match data.run_duration with
      | none => .error .keyError
      | some q =>
        let duration := pyInt ((pyInt q : ℚ) / 60)
        if duration < cfg.min_duration then .ok none
        else .ok (some q)
    else .ok none

/-- Classification outcome of one completed evaluation. -/
inductive Outcome
  | confirmed
  | alert
deriving DecidableEq, Repr

/-- Result of one `check_usage` invocation of the current variant.
`retry` is `run_in(check_usage, 60, data)`; `abandonedStale` is the
error-logged early return when the usage report is too old; `classified o a`
is a terminal classification, where `a` is the notification action invoked via
`call_service` (`none` when the corresponding action is not configured, in
which case no notification is sent). -/
inductive StepResult
  | retry
  | abandonedStale
  | classified (outcome : Outcome) (notified : Option String)
deriving DecidableEq, Repr

/-- Environment of one `check_usage` invocation: the `last_reported` timestamp
of the usage sensor, the current time, and the `get_history` collaborator as a
function of the requested window start (the window ends now). -/
structure CheckInput where
  reported : ℚ
  now : ℚ
  histQuery : ℚ → List (List ℚ)

/-- Embedding of `IrrigationCheck._get_history_state_delta` (both variants have
the same body): difference between the last and the first state value of
`history[0]`. Indexing an empty list raises `IndexError`. -/
def get_history_state_delta (history : List (List ℚ)) : Except PyErr ℚ :=
  match history with
  | [] => .error .indexError
  | h0 :: _ =>
    match h0 with
    | [] => .error .indexError
    | s0 :: rest => .ok ((s0 :: rest).getLast (List.cons_ne_nil s0 rest) - s0)

/-- The `start_time` computed in `check_usage` of the current variant:
`datetime.now() - (datetime.now(tz) - finish_time) - timedelta(seconds=duration)`. -/
def check_usage_start_time (td : TaskData) (now : ℚ) : ℚ :=
  now - (now - td.finish_time) - (td.duration : ℚ)

/-- The flow rate computed in `check_usage` of the current variant:
`lpm = usage_liters / (duration / 60)`. -/
def lpm_of (usage_liters : ℤ) (duration : ℚ) : ℚ :=
  (usage_liters : ℚ) / (duration / 60)

/-- Embedding of `IrrigationCheck.check_usage` of the current variant.
Mirrors the source order: the not-yet-updated retry check, the 30-minute
staleness check, the history query over `[start_time, now]`, the `int(...)`
truncation of the delta, the flow-rate computation (division by zero raises
`ZeroDivisionError`), and the strict threshold comparison choosing the branch
and its configured notification action. -/
def check_usage (cfg : Config) (td : TaskData) (inp : CheckInput) :
    Except PyErr StepResult :=
  let finish_time := td.finish_time
  let latency := inp.reported - finish_time
  if inp.reported < finish_time then
    .ok .retry
  else if (30 * 60 : ℚ) < latency then
    .ok .abandonedStale
  else
    let duration : ℚ := (td.duration : ℚ)
    let start_time := check_usage_start_time td inp.now
    match get_history_state_delta (inp.histQuery start_time) with
    | .error e => .error e
    | .ok delta =>
      let usage_liters : ℤ := pyInt delta
      if duration / 60 = 0 then .error .zeroDivisionError
      else
        let lpm := lpm_of usage_liters duration
        if (cfg.min_expected_lpm : ℚ) < lpm then
          .ok (.classified .confirmed cfg.notify_ok_action)
        else
          .ok (.classified .alert cfg.notify_alert_action)

/-- The `start_time` computed in `check_usage` of the legacy variant:
`datetime.now() - timedelta(minutes=history_mins)` with
`history_mins = delay_minutes + duration` (duration in whole minutes). -/
def check_usage_start_time_v1 (cfg : ConfigV1) (duration_min : ℤ) (now : ℚ) : ℚ :=
  now - 60 * ((cfg.delay_minutes + duration_min : ℤ) : ℚ)

/-- Embedding of `IrrigationCheck.check_usage` of the legacy variant:
recomputes the duration in whole minutes from the event data, queries the
history over `[now - (delay_minutes + duration) minutes, now]`, rounds the
delta to one decimal place, and compares it against
`duration * min_expected_lpm`. The legacy variant has no retry and no
staleness handling, and notifies only on the alert branch. -/
def check_usage_v1 (cfg : ConfigV1) (raw_duration : ℚ) (inp : CheckInput) :
    Except PyErr StepResult :=
  let duration := pyInt ((pyInt raw_duration : ℚ) / 60)
  let start_time := check_usage_start_time_v1 cfg duration inp.now
  match get_history_state_delta (inp.histQuery start_time) with
  | .error e => .error e
  | .ok delta =>
    let usage_liters := pyRound1 delta
    if (duration : ℚ) * (cfg.min_expected_lpm : ℚ) < usage_liters then
      .ok (.classified .confirmed none)
    else
      .ok (.classified .alert cfg.alert_notify_action)

/-- Notification actions invoked by one `check_usage` step (the `call_service`
calls it makes): at most a singleton. -/
def stepNotifications : Except PyErr StepResult → List String
  | .ok (.classified _ (some a)) => [a]
  | _ => []

/-- Whether a `check_usage` step schedules a further `check_usage` invocation
(`run_in(check_usage, 60, data)` on the retry path). -/
def stepContinues : Except PyErr StepResult → Bool
  | .ok .retry => true
  | _ => false

/-- Notification actions invoked over the whole life of one verification task
of the current variant: `check_usage` steps are fed successive environments,
and the task continues only while a step ends in a retry. -/
def run_task (cfg : Config) (td : TaskData) : List CheckInput → List String
  | [] => []
  | inp :: rest =>
    let r := check_usage cfg td inp
    stepNotifications r ++ (if stepContinues r then run_task cfg td rest else [])

/-! ## Helper lemmas -/

/-- On nonnegative inputs the Python truncation is the floor. -/
lemma pyInt_of_nonneg {q : ℚ} (h : 0 ≤ q) : pyInt q = ⌊q⌋ := if_pos h

/-- On integer values the Python truncation is the identity. -/
lemma pyInt_intCast (n : ℤ) : pyInt ((n : ℚ)) = n := by
  unfold pyInt
  split <;> simp

/-- The Python truncation of a nonpositive number is nonpositive. -/
lemma pyInt_nonpos {q : ℚ} (h : q ≤ 0) : pyInt q ≤ 0 := by
  unfold pyInt
  split
  · exact Int.floor_nonpos h
  · exact Int.ceil_le.mpr (by exact_mod_cast h)

/-- Behaviour of `check_usage` once a report at or after the finish time with
acceptable latency is available and the history query returns a delta:
classification happens, with the strict threshold comparison selecting the
branch. -/
lemma check_usage_fresh (cfg : Config) (td : TaskData) (inp : CheckInput) (δ : ℚ)
    (h1 : td.finish_time ≤ inp.reported)
    (h2 : inp.reported - td.finish_time ≤ 30 * 60)
    (hδ : get_history_state_delta (inp.histQuery (check_usage_start_time td inp.now)) =
      .ok δ)
    (hd : (td.duration : ℚ) ≠ 0) :
    check_usage cfg td inp =
      if (cfg.min_expected_lpm : ℚ) < lpm_of (pyInt δ) (td.duration : ℚ) then
        .ok (.classified .confirmed cfg.notify_ok_action)
      else
        .ok (.classified .alert cfg.notify_alert_action) := by
  have hd60 : ¬ ((td.duration : ℚ) / 60 = 0) := by
    rw [div_eq_zero_iff]
    push_neg
    exact ⟨hd, by norm_num⟩
  simp only [check_usage, not_lt.mpr h1, if_false, not_lt.mpr h2, hδ, hd60]

/-- A step with an empty history result propagates the index error out of the
handler. -/
lemma check_usage_empty_hist (cfg : Config) (td : TaskData) (inp : CheckInput)
    (h1 : td.finish_time ≤ inp.reported)
    (h2 : inp.reported - td.finish_time ≤ 30 * 60)
    (hh : inp.histQuery (check_usage_start_time td inp.now) = []) :
    check_usage cfg td inp = .error .indexError := by
  simp only [check_usage, not_lt.mpr h1, if_false, not_lt.mpr h2, hh,
    get_history_state_delta]

/-! ## Claim theorems -/

/-- C1, counterexample. The claim says that once the deadline
`finishedAt + 30 min` is exceeded no further retry is scheduled. With a run
that finished at time 0 and a sensor whose last report (time −10) still
predates the finish at time 3600 (a full hour later, twice the 30-minute
deadline), `check_usage` nevertheless schedules another retry instead of
abandoning. -/
theorem c1_deadline_counterexample :
    check_usage ⟨"s", none, 3, 10, none, none⟩ ⟨600, 0⟩
        ⟨-10, 3600, fun _ => [[0, 0]]⟩ = .ok .retry
    ∧ (0 : ℚ) + 30 * 60 < 3600 := by
  constructor
  · norm_num [check_usage]
  · norm_num

/-- C1, amended. The 30-minute staleness deadline is only consulted once a
report at or after `finishedAt` exists: while the report predates the finish a
retry is scheduled unconditionally (regardless of how far past the deadline the
task is), so a task whose data never arrives retries forever instead of
reaching the abandoned state; once a report at or after the finish arrives
with latency above 30 minutes the task is abandoned as too stale, and in both
of these situations no notification is sent and, in the stale case, no further
retry is scheduled. -/
theorem c1_deadline_behavior (cfg : Config) (td : TaskData) (inp : CheckInput) :
    (inp.reported < td.finish_time → check_usage cfg td inp = .ok .retry)
    ∧ (td.finish_time ≤ inp.reported → 30 * 60 < inp.reported - td.finish_time →
        check_usage cfg td inp = .ok .abandonedStale)
    ∧ stepNotifications (.ok .retry) = []
    ∧ stepNotifications (.ok .abandonedStale) = []
    ∧ stepContinues (.ok .abandonedStale) = false := by
  refine ⟨fun h => ?_, fun h1 h2 => ?_, rfl, rfl, rfl⟩
  · simp only [check_usage, if_pos h]
  · simp only [check_usage, not_lt.mpr h1, if_false, if_pos h2]

/-- C1, witness for the amended theorem: a not-yet-reported step retries and a
step with a 40-minute-late report is abandoned. -/
theorem c1_deadline_behavior_witness :
    check_usage ⟨"s", none, 3, 10, none, none⟩ ⟨600, 0⟩
        ⟨-10, 100, fun _ => [[0, 0]]⟩ = .ok .retry
    ∧ check_usage ⟨"s", none, 3, 10, none, none⟩ ⟨600, 0⟩
        ⟨2400, 2500, fun _ => [[0, 0]]⟩ = .ok .abandonedStale :=
  ⟨(c1_deadline_behavior _ _ _).1 (by norm_num),
   (c1_deadline_behavior _ _ _).2.1 (by norm_num) (by norm_num)⟩

/-- C2. For a matching event carrying a nonnegative run duration, a
verification task is created (and hence a usage query later issued) exactly
when the duration in seconds is at least `minDurationSeconds`, i.e. 60 times
the minute-valued `min_duration` knob (180 seconds at the default
`min_duration = 3`); below the threshold no task is created in either variant,
and the created task carries the run duration and the observation time. -/
theorem c2_min_duration_filter (cfg : Config) (cfg1 : ConfigV1) (data : EventData)
    (now q : ℚ)
    (he : data.entity_id = some cfg.sequence_entity_id)
    (he1 : data.entity_id = some cfg1.sequence_entity_id)
    (hq : data.run_duration = some q)
    (hnn : 0 ≤ pyInt q) :
    (∃ r, irrigation_complete cfg data now = .ok r
      ∧ (r.task = none ↔ pyInt q < minDurationSeconds cfg.min_duration)
      ∧ (∀ td, r.task = some td → td.duration = pyInt q ∧ td.finish_time = now))
    ∧ (∃ o, irrigation_complete_v1 cfg1 data = .ok o
      ∧ (o = none ↔ pyInt q < minDurationSeconds cfg1.min_duration))
    ∧ minDurationSeconds 3 = 180 := by
  have key : ∀ m : ℤ, ((pyInt q : ℚ) / 60 < (m : ℚ)) ↔ pyInt q < minDurationSeconds m := by
    intro m
    rw [div_lt_iff₀ (by norm_num : (0:ℚ) < 60), minDurationSeconds]
    constructor
    · intro h
      have : (pyInt q : ℚ) < ((60 * m : ℤ) : ℚ) := by push_cast; linarith
      exact_mod_cast this
    · intro h
      have : (pyInt q : ℚ) < ((60 * m : ℤ) : ℚ) := by exact_mod_cast h
      push_cast at this
      linarith
  refine ⟨?_, ?_, rfl⟩
  · by_cases hc : (pyInt q : ℚ) / 60 < (cfg.min_duration : ℚ)
    · refine ⟨⟨cfg.sprinkler_entity_id.isSome, none⟩, ?_, ?_, ?_⟩
      · simp [irrigation_complete, he, hq, hc]
      · exact ⟨fun _ => (key _).mp hc, fun _ => rfl⟩
      · intro td htd
        exact absurd htd (Option.some_ne_none td).symm
    · refine ⟨⟨cfg.sprinkler_entity_id.isSome, some ⟨pyInt q, now⟩⟩, ?_, ?_, ?_⟩
      · simp [irrigation_complete, he, hq, hc]
      · constructor
        · intro h
          exact absurd h (Option.some_ne_none _)
        · intro h
          exact absurd ((key _).mpr h) hc
      · intro td htd
        simp only [Option.some.injEq] at htd
        rw [← htd]
        exact ⟨rfl, rfl⟩
  · have hq0 : (0 : ℚ) ≤ (pyInt q : ℚ) := by exact_mod_cast hnn
    have hfloor : pyInt ((pyInt q : ℚ) / 60) = ⌊(pyInt q : ℚ) / 60⌋ :=
      pyInt_of_nonneg (div_nonneg hq0 (by norm_num))
    have keyv : pyInt ((pyInt q : ℚ) / 60) < cfg1.min_duration ↔
        pyInt q < minDurationSeconds cfg1.min_duration := by
      rw [hfloor, Int.floor_lt, key]
    by_cases hc : pyInt ((pyInt q : ℚ) / 60) < cfg1.min_duration
    · refine ⟨none, ?_, ?_⟩
      · simp [irrigation_complete_v1, he1, hq, hc]
      · exact ⟨fun _ => keyv.mp hc, fun _ => rfl⟩
    · refine ⟨some q, ?_, ?_⟩
      · simp [irrigation_complete_v1, he1, hq, hc]
      · constructor
        · intro h
          exact absurd h (Option.some_ne_none _)
        · intro h
          exact absurd (keyv.mpr h) hc

/-- C2, witness: a matching event with a 480-second run at the default
configuration creates a task with duration 480 and skips nothing, and the
default threshold is 180 seconds. -/
theorem c2_min_duration_filter_witness :
    (∃ r, irrigation_complete ⟨"s", none, 3, 10, none, none⟩ ⟨some "s", some 480⟩ 0 = .ok r
      ∧ (r.task = none ↔ pyInt 480 < minDurationSeconds 3)
      ∧ (∀ td, r.task = some td → td.duration = pyInt 480 ∧ td.finish_time = 0))
    ∧ (∃ o, irrigation_complete_v1 ⟨"s", 3, 10, 10, none⟩ ⟨some "s", some 480⟩ = .ok o
      ∧ (o = none ↔ pyInt 480 < minDurationSeconds 3))
    ∧ minDurationSeconds 3 = 180 :=
  c2_min_duration_filter ⟨"s", none, 3, 10, none, none⟩ ⟨"s", 3, 10, 10, none⟩
    ⟨some "s", some 480⟩ 0 480 rfl rfl rfl (by norm_num [pyInt])

/-- C3, counterexample. The claim says the flow rate used for classification is
exactly `deltaLiters / (durationSeconds / 60)` for the raw delta returned by
the history query. With a raw delta of 100.5 liters over a 600-second run the
claimed flow is 10.05, strictly above the default threshold 10, so under the
claim the run would be classified Confirmed; the code however truncates the
delta to 100 liters (`int(...)`), computes flow 10, and classifies Alert. -/
theorem c3_flow_counterexample :
    check_usage ⟨"s", none, 3, 10, none, none⟩ ⟨600, 0⟩
        ⟨60, 700, fun _ => [[0, 201/2]]⟩ = .ok (.classified .alert none)
    ∧ (10 : ℚ) < (201/2 : ℚ) / ((600 : ℚ) / 60) := by
  constructor
  · norm_num [check_usage, check_usage_start_time, get_history_state_delta, pyInt,
      lpm_of]
  · norm_num

/-- C3, amended. The flow rate used for classification equals the
`int`-truncated usage delta divided by `durationSeconds / 60` (so the claimed
formula holds only up to truncation of the delta toward zero): classification
compares that value against the threshold. -/
theorem c3_flow_formula (cfg : Config) (td : TaskData) (inp : CheckInput) (δ : ℚ)
    (h1 : td.finish_time ≤ inp.reported)
    (h2 : inp.reported - td.finish_time ≤ 30 * 60)
    (hδ : get_history_state_delta (inp.histQuery (check_usage_start_time td inp.now)) =
      .ok δ)
    (hd : (td.duration : ℚ) ≠ 0) :
    check_usage cfg td inp =
      (if (cfg.min_expected_lpm : ℚ) < lpm_of (pyInt δ) (td.duration : ℚ) then
        .ok (.classified .confirmed cfg.notify_ok_action)
      else
        .ok (.classified .alert cfg.notify_alert_action))
    ∧ lpm_of (pyInt δ) (td.duration : ℚ) = (pyInt δ : ℚ) / ((td.duration : ℚ) / 60) :=
  ⟨check_usage_fresh cfg td inp δ h1 h2 hδ hd, rfl⟩

/-- C3, witness for the amended theorem: the counterexample run evaluated
through the amended statement (truncated delta 100, flow 10, Alert branch). -/
theorem c3_flow_formula_witness :
    check_usage ⟨"s", none, 3, 10, none, none⟩ ⟨600, 0⟩
        ⟨60, 700, fun _ => [[0, 201/2]]⟩ =
      (if ((10 : ℤ) : ℚ) < lpm_of (pyInt (201/2)) ((600 : ℤ) : ℚ) then
        .ok (.classified .confirmed none)
      else
        .ok (.classified .alert none))
    ∧ lpm_of (pyInt (201/2)) ((600 : ℤ) : ℚ) =
        (pyInt (201/2 : ℚ) : ℚ) / (((600 : ℤ) : ℚ) / 60) :=
  c3_flow_formula ⟨"s", none, 3, 10, none, none⟩ ⟨600, 0⟩
    ⟨60, 700, fun _ => [[0, 201/2]]⟩ (201/2)
    (by norm_num) (by norm_num)
    (by norm_num [get_history_state_delta, check_usage_start_time])
    (by norm_num)

/-- C4. Under fresh data the outcome is Confirmed exactly when the computed
flow rate is strictly greater than `min_expected_lpm`; a flow rate exactly
equal to the threshold falls into the Alert branch (strict comparison). -/
theorem c4_strict_threshold (cfg : Config) (td : TaskData) (inp : CheckInput) (δ : ℚ)
    (h1 : td.finish_time ≤ inp.reported)
    (h2 : inp.reported - td.finish_time ≤ 30 * 60)
    (hδ : get_history_state_delta (inp.histQuery (check_usage_start_time td inp.now)) =
      .ok δ)
    (hd : (td.duration : ℚ) ≠ 0) :
    (check_usage cfg td inp = .ok (.classified .confirmed cfg.notify_ok_action) ↔
      (cfg.min_expected_lpm : ℚ) < lpm_of (pyInt δ) (td.duration : ℚ))
    ∧ (lpm_of (pyInt δ) (td.duration : ℚ) = (cfg.min_expected_lpm : ℚ) →
        check_usage cfg td inp = .ok (.classified .alert cfg.notify_alert_action)) := by
  rw [check_usage_fresh cfg td inp δ h1 h2 hδ hd]
  constructor
  · by_cases hc : (cfg.min_expected_lpm : ℚ) < lpm_of (pyInt δ) (td.duration : ℚ)
    · simp [hc]
    · simp [hc]
  · intro heq
    rw [if_neg (by rw [heq]; exact lt_irrefl _)]

/-- C4, witness: a 600-second run with delta 120 gives flow 12, strictly above
the default threshold 10, and the Confirmed classification; the boundary
conjunct is instantiated as well. -/
theorem c4_strict_threshold_witness :
    (check_usage ⟨"s", none, 3, 10, some "n.ok", some "n.alert"⟩ ⟨600, 0⟩
        ⟨60, 700, fun _ => [[0, 120]]⟩ = .ok (.classified .confirmed (some "n.ok")) ↔
      ((10 : ℤ) : ℚ) < lpm_of (pyInt 120) ((600 : ℤ) : ℚ))
    ∧ (lpm_of (pyInt 120) ((600 : ℤ) : ℚ) = ((10 : ℤ) : ℚ) →
        check_usage ⟨"s", none, 3, 10, some "n.ok", some "n.alert"⟩ ⟨600, 0⟩
          ⟨60, 700, fun _ => [[0, 120]]⟩ = .ok (.classified .alert (some "n.alert"))) :=
  c4_strict_threshold ⟨"s", none, 3, 10, some "n.ok", some "n.alert"⟩ ⟨600, 0⟩
    ⟨60, 700, fun _ => [[0, 120]]⟩ 120
    (by norm_num) (by norm_num)
    (by norm_num [get_history_state_delta, check_usage_start_time])
    (by norm_num)

/-- Inversion of a classification result of `check_usage`: the notified action
is exactly the configured action of the branch taken. -/
lemma check_usage_classified (cfg : Config) (td : TaskData) (inp : CheckInput)
    (o : Outcome) (a : Option String)
    (h : check_usage cfg td inp = .ok (.classified o a)) :
    (o = .confirmed ∧ a = cfg.notify_ok_action) ∨
    (o = .alert ∧ a = cfg.notify_alert_action) := by
  simp only [check_usage] at h
  split at h
  · simp at h
  · split at h
    · simp at h
    · split at h
      · simp at h
      · split at h
        · simp at h
        · split at h
          · left
            simp only [Except.ok.injEq, StepResult.classified.injEq] at h
            exact ⟨h.1.symm, h.2.symm⟩
          · right
            simp only [Except.ok.injEq, StepResult.classified.injEq] at h
            exact ⟨h.1.symm, h.2.symm⟩

/-- Over any sequence of step environments, a task emits at most one
notification: a step that notifies is a classification, and classifications do
not schedule further steps. -/
lemma run_task_length_le_one (cfg : Config) (td : TaskData) :
    ∀ inps, (run_task cfg td inps).length ≤ 1 := by
  intro inps
  induction inps with
  | nil => simp [run_task]
  | cons inp rest ih =>
    simp only [run_task]
    cases h : check_usage cfg td inp with
    | error e => simp [stepNotifications, stepContinues]
    | ok r =>
      cases r with
      | retry => simpa [stepNotifications, stepContinues] using ih
      | abandonedStale => simp [stepNotifications, stepContinues]
      | classified o a =>
        cases a with
        | none => simp [stepNotifications, stepContinues]
        | some s => simp [stepNotifications, stepContinues]

/-- A task none of whose steps classifies (every step retries, is abandoned,
or raises) emits no notification at all. -/
lemma run_task_nil_of_no_classified (cfg : Config) (td : TaskData) :
    ∀ inps, (∀ inp ∈ inps, ∀ o a, check_usage cfg td inp ≠ .ok (.classified o a)) →
      run_task cfg td inps = [] := by
  intro inps
  induction inps with
  | nil => intro _; rfl
  | cons inp rest ih =>
    intro hno
    simp only [run_task]
    cases h : check_usage cfg td inp with
    | error e => simp [stepNotifications, stepContinues]
    | ok r =>
      cases r with
      | retry =>
        have htail := ih (fun i hi => hno i (List.mem_cons_of_mem _ hi))
        simp [stepNotifications, stepContinues, htail]
      | abandonedStale => simp [stepNotifications, stepContinues]
      | classified o a => exact absurd h (hno inp (List.mem_cons_self _ _) o a)

/-- C5. Over the whole life of a verification task the notification sink is
invoked at most once; any step that classifies invokes exactly the action
configured for its branch (Confirmed with the ok action, Alert with the alert
action, hence nothing when unconfigured); and a task none of whose steps
classifies (for example one that retries and is then abandoned as stale) never
invokes the sink at all. -/
theorem c5_notify_at_most_once (cfg : Config) (td : TaskData) :
    (∀ inps, (run_task cfg td inps).length ≤ 1)
    ∧ (∀ inp o a, check_usage cfg td inp = .ok (.classified o a) →
        (o = .confirmed ∧ a = cfg.notify_ok_action) ∨
        (o = .alert ∧ a = cfg.notify_alert_action))
    ∧ (∀ inps, (∀ inp ∈ inps, ∀ o a, check_usage cfg td inp ≠ .ok (.classified o a)) →
        run_task cfg td inps = []) :=
  ⟨run_task_length_le_one cfg td,
   fun inp o a h => check_usage_classified cfg td inp o a h,
   run_task_nil_of_no_classified cfg td⟩

/-- C5, witness: a task consisting of a retry step followed by a confirming
step emits one notification, that notification is the configured ok action,
and the empty trace emits none. -/
theorem c5_notify_at_most_once_witness :
    (run_task ⟨"s", none, 3, 10, some "n.ok", some "n.alert"⟩ ⟨600, 0⟩
        [⟨-5, 40, fun _ => [[0, 120]]⟩, ⟨60, 700, fun _ => [[0, 120]]⟩]).length ≤ 1
    ∧ ((Outcome.confirmed = .confirmed ∧
          (some "n.ok" : Option String) = some "n.ok") ∨
        (Outcome.confirmed = .alert ∧
          (some "n.ok" : Option String) = some "n.alert"))
    ∧ run_task ⟨"s", none, 3, 10, some "n.ok", some "n.alert"⟩ ⟨600, 0⟩ [] = [] := by
  refine ⟨(c5_notify_at_most_once _ _).1 _, ?_, (c5_notify_at_most_once _ _).2.2 [] (by simp)⟩
  have h := (c5_notify_at_most_once ⟨"s", none, 3, 10, some "n.ok", some "n.alert"⟩
      ⟨600, 0⟩).2.1 ⟨60, 700, fun _ => [[0, 120]]⟩ .confirmed (some "n.ok")
    (by norm_num [check_usage, check_usage_start_time, get_history_state_delta,
      pyInt, lpm_of])
  exact h

/-- C6, counterexample. The claim says a negative usage delta (counter reset)
makes the task transition to Abandoned and is never classified. With a history
whose counter drops from 10 to 5 (delta −5) over a fresh window, the code
classifies the run Alert and invokes the configured alert notification action
rather than abandoning. -/
theorem c6_negative_delta_counterexample :
    check_usage ⟨"s", none, 3, 10, none, some "n.alert"⟩ ⟨600, 0⟩
        ⟨60, 700, fun _ => [[10, 5]]⟩ = .ok (.classified .alert (some "n.alert"))
    ∧ get_history_state_delta [[(10 : ℚ), 5]] = .ok (-5)
    ∧ ((-5 : ℚ) < 0) := by
  have h5 : pyInt (-5 : ℚ) = -5 := by
    rw [show (-5 : ℚ) = ((-5 : ℤ) : ℚ) by norm_num]
    exact pyInt_intCast (-5)
  refine ⟨?_, ?_, by norm_num⟩
  · norm_num [check_usage, check_usage_start_time, get_history_state_delta, h5,
      lpm_of]
  · norm_num [get_history_state_delta]

/-- C6, amended. A negative delta is not detected as a counter reset: the run
is never classified Confirmed (its truncated delta, and hence its flow rate,
is nonpositive, below any nonnegative threshold), but instead of the claimed
Abandoned transition it falls into the Alert branch, invoking the configured
alert action. -/
theorem c6_negative_delta_alerts (cfg : Config) (td : TaskData) (inp : CheckInput)
    (δ : ℚ)
    (h1 : td.finish_time ≤ inp.reported)
    (h2 : inp.reported - td.finish_time ≤ 30 * 60)
    (hδ : get_history_state_delta (inp.histQuery (check_usage_start_time td inp.now)) =
      .ok δ)
    (hd : 0 < (td.duration : ℚ))
    (hneg : δ < 0)
    (hmin : 0 ≤ cfg.min_expected_lpm) :
    check_usage cfg td inp = .ok (.classified .alert cfg.notify_alert_action) := by
  rw [check_usage_fresh cfg td inp δ h1 h2 hδ (ne_of_gt hd)]
  rw [if_neg]
  intro hlt
  have hu : (pyInt δ : ℚ) ≤ 0 := by
    exact_mod_cast pyInt_nonpos (le_of_lt hneg)
  have hlpm : lpm_of (pyInt δ) (td.duration : ℚ) ≤ 0 := by
    unfold lpm_of
    exact div_nonpos_iff.mpr (Or.inr ⟨hu, by positivity⟩)
  have hmin' : (0 : ℚ) ≤ (cfg.min_expected_lpm : ℚ) := by exact_mod_cast hmin
  linarith

/-- C6, witness for the amended theorem: the counter-reset run with delta −5
is classified Alert with the configured alert action. -/
theorem c6_negative_delta_alerts_witness :
    check_usage ⟨"s", none, 3, 10, none, some "n.alert"⟩ ⟨600, 0⟩
        ⟨50, 600, fun _ => [[10, 5]]⟩ = .ok (.classified .alert (some "n.alert")) :=
  c6_negative_delta_alerts ⟨"s", none, 3, 10, none, some "n.alert"⟩ ⟨600, 0⟩
    ⟨50, 600, fun _ => [[10, 5]]⟩ (-5)
    (by norm_num) (by norm_num)
    (by norm_num [get_history_state_delta, check_usage_start_time])
    (by norm_num) (by norm_num) (by norm_num)

/-- C7, counterexample. The claim says a window with fewer than two data
points fails with a NoData error that is treated as a retry, and that no
classification is made from such a window. With a window holding exactly one
data point (state 42) the delta operation succeeds with delta 0 (last minus
first of a singleton) and `check_usage` proceeds to classify the run Alert —
no error, no retry. -/
theorem c7_single_point_counterexample :
    get_history_state_delta [[(42 : ℚ)]] = .ok 0
    ∧ check_usage ⟨"s", none, 3, 10, none, none⟩ ⟨600, 0⟩
        ⟨60, 700, fun _ => [[42]]⟩ = .ok (.classified .alert none) := by
  constructor
  · norm_num [get_history_state_delta]
  · norm_num [check_usage, check_usage_start_time, get_history_state_delta, pyInt,
      lpm_of]

/-- C7, amended. A window with exactly one data point does not fail: the delta
is that point minus itself, 0, and classification proceeds on it; a window
with no data points raises an unhandled `IndexError` that propagates out of
the handler instead of being resolved into a retry. There is no NoData-style
retry handling for sparse windows. -/
theorem c7_few_points (x : ℚ) :
    get_history_state_delta [[x]] = .ok 0
    ∧ (∀ rest : List (List ℚ), get_history_state_delta ([] :: rest) = .error .indexError)
    ∧ get_history_state_delta [] = .error .indexError
    ∧ (∀ (cfg : Config) (td : TaskData) (inp : CheckInput),
        td.finish_time ≤ inp.reported → inp.reported - td.finish_time ≤ 30 * 60 →
        inp.histQuery (check_usage_start_time td inp.now) = [] →
        check_usage cfg td inp = .error .indexError)
    ∧ (∀ (cfg : Config) (td : TaskData) (inp : CheckInput),
        td.finish_time ≤ inp.reported → inp.reported - td.finish_time ≤ 30 * 60 →
        inp.histQuery (check_usage_start_time td inp.now) = [[x]] →
        (td.duration : ℚ) ≠ 0 →
        ∃ o a, check_usage cfg td inp = .ok (.classified o a)) := by
  refine ⟨by norm_num [get_history_state_delta], fun rest => rfl, rfl,
    fun cfg td inp ha hb hh => check_usage_empty_hist cfg td inp ha hb hh,
    fun cfg td inp ha hb hh hd => ?_⟩
  have hδ : get_history_state_delta (inp.histQuery (check_usage_start_time td inp.now)) =
      .ok 0 := by
    rw [hh]
    norm_num [get_history_state_delta]
  rw [check_usage_fresh cfg td inp 0 ha hb hδ hd]
  by_cases hc : (cfg.min_expected_lpm : ℚ) < lpm_of (pyInt 0) (td.duration : ℚ)
  · exact ⟨.confirmed, cfg.notify_ok_action, by rw [if_pos hc]⟩
  · exact ⟨.alert, cfg.notify_alert_action, by rw [if_neg hc]⟩

/-- C7, witness for the amended theorem: the singleton-window delta is 0, the
empty window raises, the raised error propagates out of a concrete fresh step,
and a concrete fresh singleton-window step classifies. -/
theorem c7_few_points_witness :
    get_history_state_delta [[(42 : ℚ)]] = .ok 0
    ∧ check_usage ⟨"s", none, 3, 10, none, none⟩ ⟨600, 0⟩
        ⟨60, 700, fun _ => []⟩ = .error .indexError
    ∧ (∃ o a, check_usage ⟨"s", none, 3, 10, none, none⟩ ⟨600, 0⟩
        ⟨60, 700, fun _ => [[42]]⟩ = .ok (.classified o a)) :=
  ⟨(c7_few_points 42).1,
   (c7_few_points 42).2.2.2.1 ⟨"s", none, 3, 10, none, none⟩ ⟨600, 0⟩
     ⟨60, 700, fun _ => []⟩ (by norm_num) (by norm_num) rfl,
   (c7_few_points 42).2.2.2.2 ⟨"s", none, 3, 10, none, none⟩ ⟨600, 0⟩
     ⟨60, 700, fun _ => [[42]]⟩ (by norm_num) (by norm_num) rfl (by norm_num)⟩

/-- C8, counterexample. The claim says no runtime error propagates out of the
handlers and malformed payloads are resolved locally. A completion event for
the configured sequence whose payload lacks the `run`/`duration` entry makes
`irrigation_complete` raise a `KeyError` that propagates out of the handler
unhandled. -/
theorem c8_malformed_event_counterexample :
    irrigation_complete ⟨"seq", none, 3, 10, none, none⟩ ⟨some "seq", none⟩ 0 =
      .error .keyError := by
  norm_num [irrigation_complete]

/-- C8, amended. The handlers perform no validation and install no local error
handling: an event payload whose accessed fields are all present is processed
without an unhandled error, but a payload missing `entity_id`, or a matching
payload missing the run duration, raises `KeyError` out of
`irrigation_complete`, and an empty history query result raises `IndexError`
out of `check_usage`; such an error aborts that invocation without producing a
retry, a terminal state, or a classification. -/
theorem c8_no_local_error_handling :
    (∀ (cfg : Config) (data : EventData) (now : ℚ),
        data.entity_id ≠ none → data.run_duration ≠ none →
        ∃ r, irrigation_complete cfg data now = .ok r)
    ∧ (∀ (cfg : Config) (now : ℚ) (d : Option ℚ),
        irrigation_complete cfg ⟨none, d⟩ now = .error .keyError)
    ∧ (∀ (cfg : Config) (now : ℚ),
        irrigation_complete cfg ⟨some cfg.sequence_entity_id, none⟩ now =
          .error .keyError)
    ∧ (∀ (cfg : Config) (td : TaskData) (inp : CheckInput),
        td.finish_time ≤ inp.reported → inp.reported - td.finish_time ≤ 30 * 60 →
        inp.histQuery (check_usage_start_time td inp.now) = [] →
        check_usage cfg td inp = .error .indexError) := by
  refine ⟨?_, fun cfg now d => rfl, ?_, fun cfg td inp => check_usage_empty_hist cfg td inp⟩
  · intro cfg data now he hd
    match hde : data.entity_id with
    | none => exact absurd hde he
    | some eid =>
      match hdd : data.run_duration with
      | none => exact absurd hdd hd
      | some q =>
        by_cases heq : eid = cfg.sequence_entity_id
        · by_cases hc : (pyInt q : ℚ) / 60 < (cfg.min_duration : ℚ)
          · exact ⟨⟨cfg.sprinkler_entity_id.isSome, none⟩,
              by simp [irrigation_complete, hde, hdd, heq, hc]⟩
          · exact ⟨⟨cfg.sprinkler_entity_id.isSome, some ⟨pyInt q, now⟩⟩,
              by simp [irrigation_complete, hde, hdd, heq, hc]⟩
        · exact ⟨⟨false, none⟩, by simp [irrigation_complete, hde, hdd, heq]⟩
  · intro cfg now
    simp [irrigation_complete]

/-- C8, witness for the amended theorem: a well-formed event is processed
without error, the two malformed shapes raise `KeyError`, and an empty history
raises `IndexError` out of a concrete fresh step. -/
theorem c8_no_local_error_handling_witness :
    (∃ r, irrigation_complete ⟨"seq", none, 3, 10, none, none⟩
        ⟨some "other", some 480⟩ 0 = .ok r)
    ∧ irrigation_complete ⟨"seq", none, 3, 10, none, none⟩ ⟨none, some 480⟩ 0 =
        .error .keyError
    ∧ irrigation_complete ⟨"seq", none, 3, 10, none, none⟩ ⟨some "seq", none⟩ 1 =
        .error .keyError
    ∧ check_usage ⟨"seq", none, 3, 10, none, none⟩ ⟨600, 0⟩
        ⟨60, 700, fun _ => []⟩ = .error .indexError :=
  ⟨c8_no_local_error_handling.1 ⟨"seq", none, 3, 10, none, none⟩
     ⟨some "other", some 480⟩ 0 (by simp) (by simp),
   c8_no_local_error_handling.2.1 ⟨"seq", none, 3, 10, none, none⟩ 0 (some 480),
   c8_no_local_error_handling.2.2.1 ⟨"seq", none, 3, 10, none, none⟩ 1,
   c8_no_local_error_handling.2.2.2 ⟨"seq", none, 3, 10, none, none⟩ ⟨600, 0⟩
     ⟨60, 700, fun _ => []⟩ (by norm_num) (by norm_num) rfl⟩

/-- C9, counterexample. The claim says classification fails with an
InvalidInput error for every non-positive duration instead of performing the
division. With duration −60 seconds (non-positive) and a fresh 10-liter delta,
no error is raised: the division is performed (flow −10) and the run is
classified Alert. -/
theorem c9_nonpositive_duration_counterexample :
    check_usage ⟨"s", none, 3, 10, none, none⟩ ⟨-60, 0⟩
        ⟨60, 700, fun _ => [[0, 10]]⟩ = .ok (.classified .alert none)
    ∧ ((-60 : ℤ) < 0) := by
  constructor
  · norm_num [check_usage, check_usage_start_time, get_history_state_delta, pyInt,
      lpm_of]
  · norm_num

/-- C9, amended. Classification rejects nothing: for every nonzero duration,
including negative ones, the division is performed and a classification is
produced; a zero duration raises an unhandled `ZeroDivisionError` out of the
handler rather than failing with a handled InvalidInput error. -/
theorem c9_no_invalid_input_check (cfg : Config) (td : TaskData) (inp : CheckInput)
    (δ : ℚ)
    (h1 : td.finish_time ≤ inp.reported)
    (h2 : inp.reported - td.finish_time ≤ 30 * 60)
    (hδ : get_history_state_delta (inp.histQuery (check_usage_start_time td inp.now)) =
      .ok δ) :
    (td.duration ≠ 0 → ∃ o a, check_usage cfg td inp = .ok (.classified o a))
    ∧ (td.duration = 0 → check_usage cfg td inp = .error .zeroDivisionError) := by
  constructor
  · intro hd
    have hd' : (td.duration : ℚ) ≠ 0 := Int.cast_ne_zero.mpr hd
    rw [check_usage_fresh cfg td inp δ h1 h2 hδ hd']
    by_cases hc : (cfg.min_expected_lpm : ℚ) < lpm_of (pyInt δ) (td.duration : ℚ)
    · exact ⟨.confirmed, cfg.notify_ok_action, by rw [if_pos hc]⟩
    · exact ⟨.alert, cfg.notify_alert_action, by rw [if_neg hc]⟩
  · intro hd
    have hd' : (td.duration : ℚ) / 60 = 0 := by
      rw [hd]
      norm_num
    simp only [check_usage, not_lt.mpr h1, if_false, not_lt.mpr h2, hδ, hd', if_pos]

/-- C9, witness for the amended theorem: the negative-duration run classifies
without error, and the same fresh inputs with duration 0 raise
`ZeroDivisionError`. -/
theorem c9_no_invalid_input_check_witness :
    (∃ o a, check_usage ⟨"s", none, 3, 10, none, none⟩ ⟨-60, 0⟩
        ⟨60, 700, fun _ => [[0, 10]]⟩ = .ok (.classified o a))
    ∧ check_usage ⟨"s", none, 3, 10, none, none⟩ ⟨0, 0⟩
        ⟨60, 700, fun _ => [[0, 10]]⟩ = .error .zeroDivisionError :=
  ⟨(c9_no_invalid_input_check ⟨"s", none, 3, 10, none, none⟩ ⟨-60, 0⟩
      ⟨60, 700, fun _ => [[0, 10]]⟩ 10 (by norm_num) (by norm_num)
      (by norm_num [get_history_state_delta, check_usage_start_time])).1 (by norm_num),
   (c9_no_invalid_input_check ⟨"s", none, 3, 10, none, none⟩ ⟨0, 0⟩
      ⟨60, 700, fun _ => [[0, 10]]⟩ 10 (by norm_num) (by norm_num)
      (by norm_num [get_history_state_delta, check_usage_start_time])).2 rfl⟩

/-- C10, counterexample. The claim says every evaluation computes the delta
over exactly `[finishedAt − durationSeconds, now]`. In the legacy variant, for
a 90-second run finishing at time 0 whose check fires exactly `delay_minutes`
(10 minutes) later, the queried window starts at −60 (the duration is first
truncated to whole minutes), not at `finishedAt − durationSeconds = −90`: the
evaluation classifies from data available at start −60, while the claimed
window start −90 holds no data at all. -/
theorem c10_window_counterexample :
    check_usage_start_time_v1 ⟨"s", 3, 10, 10, none⟩
        (pyInt ((pyInt (90 : ℚ) : ℚ) / 60)) ((0 : ℚ) + 60 * 10) ≠ (0 : ℚ) - 90
    ∧ check_usage_v1 ⟨"s", 3, 10, 10, none⟩ 90
        ⟨0, 600, fun s => if s = -60 then [[0, 100]] else []⟩ =
        .ok (.classified .confirmed none)
    ∧ (fun s : ℚ => if s = -60 then [[(0 : ℚ), 100]] else []) ((0 : ℚ) - 90) = [] := by
  refine ⟨?_, ?_, by norm_num⟩
  · norm_num [check_usage_start_time_v1, pyInt]
  · norm_num [check_usage_v1, check_usage_start_time_v1, get_history_state_delta,
      pyInt, pyRound1, pyRoundInt]

/-- C10, amended. In the current variant the claim holds exactly: the history
window start equals `finishedAt − durationSeconds` and the step result depends
on the history collaborator only through its value at that window. The legacy
variant instead queries the window starting at
`now − 60·(delay_minutes + duration-in-whole-minutes)`, which, when the check
fires exactly `delay_minutes` after the finish, is
`finishedAt − 60·⌊durationSeconds/60⌋` — different from
`finishedAt − durationSeconds` whenever the duration is not a whole number of
minutes. -/
theorem c10_window (cfg : Config) (td : TaskData) :
    (∀ now : ℚ, check_usage_start_time td now = td.finish_time - (td.duration : ℚ))
    ∧ (∀ (r now : ℚ) (f g : ℚ → List (List ℚ)),
        f (td.finish_time - (td.duration : ℚ)) = g (td.finish_time - (td.duration : ℚ)) →
        check_usage cfg td ⟨r, now, f⟩ = check_usage cfg td ⟨r, now, g⟩)
    ∧ (∀ (cfg1 : ConfigV1) (dm : ℤ) (finish : ℚ),
        check_usage_start_time_v1 cfg1 dm (finish + 60 * (cfg1.delay_minutes : ℚ)) =
          finish - 60 * (dm : ℚ)) := by
  have hst : ∀ now : ℚ, check_usage_start_time td now =
      td.finish_time - (td.duration : ℚ) := by
    intro now
    unfold check_usage_start_time
    ring
  refine ⟨hst, ?_, ?_⟩
  · intro r now f g hfg
    simp only [check_usage, hst]
    rw [hfg]
  · intro cfg1 dm finish
    unfold check_usage_start_time_v1
    push_cast
    ring

/-- C10, witness for the amended theorem: for a 600-second run finishing at
time 0 the window start is −600, two history collaborators agreeing at −600
yield the same step result, and the legacy window start for a 1-minute
truncated duration with the default 10-minute delay is −60. -/
theorem c10_window_witness :
    check_usage_start_time ⟨600, 0⟩ 700 = (0 : ℚ) - 600
    ∧ check_usage ⟨"s", none, 3, 10, none, none⟩ ⟨600, 0⟩
        ⟨60, 700, fun s => if s = -600 then [[0, 120]] else []⟩ =
      check_usage ⟨"s", none, 3, 10, none, none⟩ ⟨600, 0⟩
        ⟨60, 700, fun _ => [[0, 120]]⟩
    ∧ check_usage_start_time_v1 ⟨"s", 3, 10, 10, none⟩ 1 ((0 : ℚ) + 60 * 10) =
        (0 : ℚ) - 60 * 1 :=
  ⟨(c10_window ⟨"s", none, 3, 10, none, none⟩ ⟨600, 0⟩).1 700,
   (c10_window ⟨"s", none, 3, 10, none, none⟩ ⟨600, 0⟩).2.1 60 700 _ _ (by norm_num),
   (c10_window ⟨"s", none, 3, 10, none, none⟩ ⟨600, 0⟩).2.2 ⟨"s", 3, 10, 10, none⟩ 1 0⟩

end IrrigationCheck
